import Mathlib

set_option maxRecDepth 8000
set_option maxHeartbeats 1000000

/-!
Verification of the telemetry-ingestion service (validator, enricher,
store serialization, query service, health aggregator).

The TypeScript sources are shallowly embedded below.  Instants are modelled
as natural numbers counting milliseconds since the Unix epoch; the model of
the JavaScript runtime's UTC calendar (new Date(...) parsing of ISO8601
date-time strings and Date.prototype.toISOString) covers instants from the
Unix epoch (1970-01-01T00:00:00.000Z) through 9999-12-31T23:59:59.999Z,
which encloses every timestamp the deployed system handles.  Lambda
functions run with TZ=UTC, so local time coincides with UTC and no time-zone
parameter is needed.
-/

/-! ## Proleptic Gregorian calendar arithmetic (model of the JS runtime)

Days are indexed by zz = (days since 1970-01-01) + 865565, so that zz = 0
falls on -0400-03-01 and all quantities stay in Nat for the covered range.
The algorithms are the standard era/year-of-era civil-date conversions.
-/

/-- Leap-year predicate of the proleptic Gregorian calendar. -/
def isLeap (y : Nat) : Bool := y % 4 == 0 && (y % 100 != 0 || y % 400 == 0)

/-- Number of days in a month. -/
def daysInMonth (leap : Bool) (m : Nat) : Nat :=
  if m = 2 then (if leap then 29 else 28)
  else if m = 4 ∨ m = 6 ∨ m = 9 ∨ m = 11 then 30 else 31

/-- Day-of-March-based-year of the first day of month m, plus the day offset. -/
def monthDoy (m d : Nat) : Nat :=
  (153 * (if m > 2 then m - 3 else m + 9) + 2) / 5 + (d - 1)

/-- Day-of-era from year-of-era and calendar month/day. -/
def doeFromYoe (yoe m d : Nat) : Nat :=
  365 * yoe + yoe / 4 - yoe / 100 + monthDoy m d

/-- First day-of-era of the March-based year y (valid for y up to 400). -/
def yearStartDoe (y : Nat) : Nat := 365 * y + y / 4 - y / 100 + y / 400

/-- Year-of-era recovered from a day-of-era. -/
def yoeOf (doe : Nat) : Nat := (doe - doe / 1460 + doe / 36524 - doe / 146096) / 365

/-- Day within the March-based year. -/
def doyOf (doe : Nat) : Nat := doe - (365 * yoeOf doe + yoeOf doe / 4 - yoeOf doe / 100)

/-- March-based month index (0 = March .. 11 = February) from day-of-year. -/
def mpOf (doy : Nat) : Nat := (5 * doy + 2) / 153

/-- Calendar month from a day-of-era. -/
def civilMonth (doe : Nat) : Nat :=
  if mpOf (doyOf doe) < 10 then mpOf (doyOf doe) + 3 else mpOf (doyOf doe) - 9

/-- Calendar day-of-month from a day-of-era. -/
def civilDay (doe : Nat) : Nat :=
  doyOf doe - (153 * mpOf (doyOf doe) + 2) / 5 + 1

structure CivilDate where
  year : Nat
  month : Nat
  day : Nat
deriving DecidableEq, Repr

/-- Calendar date from a shifted day number zz (zz = unix days + 865565). -/
def civilFromDays (zz : Nat) : CivilDate :=
  { year := (zz / 146097) * 400 + yoeOf (zz % 146097) +
      (if civilMonth (zz % 146097) ≤ 2 then 1 else 0) - 400
    month := civilMonth (zz % 146097)
    day := civilDay (zz % 146097) }

/-- Shifted day number zz from a calendar date. -/
def daysFromCivil (year m d : Nat) : Nat :=
  ((if m ≤ 2 then year + 399 else year + 400) / 400) * 146097 +
    doeFromYoe ((if m ≤ 2 then year + 399 else year + 400) % 400) m d

/-! ### Correctness of the day/civil conversion -/

theorem yoeOf_mono : Monotone yoeOf := by
  apply monotone_nat_of_le_succ
  intro x
  have h : x - x / 1460 + x / 36524 - x / 146096 ≤
      (x+1) - (x+1) / 1460 + (x+1) / 36524 - (x+1) / 146096 := by omega
  exact Nat.div_le_div_right h

theorem yoeOf_yearStart : ∀ y : Nat, y < 400 → yoeOf (yearStartDoe y) = y := by decide

theorem yoeOf_yearEnd : ∀ y : Nat, y < 400 → yoeOf (yearStartDoe (y+1) - 1) = y := by decide

theorem yearStartDoe_len : ∀ y : Nat, y < 400 →
    yearStartDoe (y+1) - yearStartDoe y = (if isLeap (y+1) then 366 else 365) := by decide

theorem yoeOf_le (doe : Nat) (h : doe < 146097) : yoeOf doe ≤ 399 := by
  have h1 : yoeOf doe ≤ yoeOf 146096 := yoeOf_mono (by omega)
  have h2 : yoeOf 146096 = 399 := by decide
  omega

theorem yoeOf_bracket (doe : Nat) (h : doe < 146097) :
    yearStartDoe (yoeOf doe) ≤ doe ∧ doe < yearStartDoe (yoeOf doe + 1) := by
  have h399 : yoeOf doe ≤ 399 := yoeOf_le doe h
  constructor
  · by_contra hc
    push_neg at hc
    rcases Nat.eq_zero_or_pos (yoeOf doe) with h0 | hpos
    · rw [h0] at hc
      simp [yearStartDoe] at hc
    · have hle : doe ≤ yearStartDoe (yoeOf doe) - 1 := by omega
      have hmono := yoeOf_mono hle
      have heq : yoeOf (yearStartDoe ((yoeOf doe - 1) + 1) - 1) = yoeOf doe - 1 :=
        yoeOf_yearEnd (yoeOf doe - 1) (by omega)
      rw [show (yoeOf doe - 1) + 1 = yoeOf doe from by omega] at heq
      omega
  · by_contra hc
    push_neg at hc
    rcases Nat.lt_or_ge (yoeOf doe) 399 with hlt | hge
    · have hmono := yoeOf_mono hc
      have heq : yoeOf (yearStartDoe (yoeOf doe + 1)) = yoeOf doe + 1 :=
        yoeOf_yearStart (yoeOf doe + 1) (by omega)
      omega
    · have h400 : yoeOf doe = 399 := by omega
      rw [h400] at hc
      have : yearStartDoe (399 + 1) = 146097 := by decide
      omega

/-- Month-level facts about the day-of-year decomposition, checked for each
of the 366 possible day-of-year values of a March-based year. -/
abbrev monthOk (doy : Nat) : Prop :=
  monthDoy (if mpOf doy < 10 then mpOf doy + 3 else mpOf doy - 9)
      (doy - (153 * mpOf doy + 2) / 5 + 1) = doy ∧
  1 ≤ (if mpOf doy < 10 then mpOf doy + 3 else mpOf doy - 9) ∧
  (if mpOf doy < 10 then mpOf doy + 3 else mpOf doy - 9) ≤ 12 ∧
  1 ≤ doy - (153 * mpOf doy + 2) / 5 + 1 ∧
  doy - (153 * mpOf doy + 2) / 5 + 1 ≤
    (if (if mpOf doy < 10 then mpOf doy + 3 else mpOf doy - 9) = 2 then 29
     else daysInMonth false (if mpOf doy < 10 then mpOf doy + 3 else mpOf doy - 9)) ∧
  ((if mpOf doy < 10 then mpOf doy + 3 else mpOf doy - 9) ≤ 2 → 306 ≤ doy) ∧
  ((if mpOf doy < 10 then mpOf doy + 3 else mpOf doy - 9) = 2 →
    (doy - (153 * mpOf doy + 2) / 5 + 1) + 336 = doy)

theorem monthOk_all : ∀ doy : Nat, doy < 366 → monthOk doy := by decide

/-- Correctness of the era-level civil-date decomposition: for every
day-of-era the recovered (year-of-era, month, day) triple maps back to the
same day-of-era, and its fields are a valid calendar date. -/
theorem core_correct (doe : Nat) (h : doe < 146097) :
    doeFromYoe (yoeOf doe) (civilMonth doe) (civilDay doe) = doe ∧
    1 ≤ civilMonth doe ∧ civilMonth doe ≤ 12 ∧
    1 ≤ civilDay doe ∧
    civilDay doe ≤ daysInMonth (isLeap (yoeOf doe + 1)) (civilMonth doe) ∧
    yoeOf doe ≤ 399 ∧
    (yoeOf doe = 399 → civilMonth doe ≤ 2 → 146037 ≤ doe) := by
  have h399 : yoeOf doe ≤ 399 := yoeOf_le doe h
  obtain ⟨hlo, hhi⟩ := yoeOf_bracket doe h
  have hlen := yearStartDoe_len (yoeOf doe) (by omega)
  have hdoy : doyOf doe = doe - yearStartDoe (yoeOf doe) := by
    unfold doyOf yearStartDoe
    omega
  have hdoylen : doyOf doe < (if isLeap (yoeOf doe + 1) then 366 else 365) := by
    rw [hdoy]
    omega
  have hdoy366 : doyOf doe < 366 := by
    rcases Nat.lt_or_ge (doyOf doe) 366 with h1 | h1
    · exact h1
    · by_cases hl : isLeap (yoeOf doe + 1) = true <;> simp [hl] at hdoylen <;> omega
  have hmo := monthOk_all (doyOf doe) hdoy366
  obtain ⟨hm0, hm1, hm2, hm3, hm4, hm5, hm6⟩ := hmo
  have hcm : civilMonth doe = (if mpOf (doyOf doe) < 10 then mpOf (doyOf doe) + 3
      else mpOf (doyOf doe) - 9) := rfl
  have hcd : civilDay doe = doyOf doe - (153 * mpOf (doyOf doe) + 2) / 5 + 1 := rfl
  rw [← hcm] at hm0 hm1 hm2 hm4 hm5 hm6
  rw [← hcd] at hm0 hm3 hm4 hm6
  refine ⟨?_, hm1, hm2, hm3, ?_, h399, ?_⟩
  · unfold doeFromYoe
    rw [hm0]
    have : yearStartDoe (yoeOf doe) = 365 * yoeOf doe + yoeOf doe / 4 - yoeOf doe / 100 := by
      unfold yearStartDoe
      omega
    omega
  · by_cases hfeb : civilMonth doe = 2
    · rw [hfeb]
      by_cases hl : isLeap (yoeOf doe + 1) = true
      · simp [daysInMonth, hl]
        rw [hfeb] at hm4
        simpa using hm4
      · have hl' : isLeap (yoeOf doe + 1) = false := by
          revert hl
          cases isLeap (yoeOf doe + 1) <;> simp
        simp [daysInMonth, hl']
        have h364 : doyOf doe ≤ 364 := by
          rw [hl'] at hdoylen
          simp at hdoylen
          omega
        have := hm6 hfeb
        omega
    · have : daysInMonth (isLeap (yoeOf doe + 1)) (civilMonth doe) =
          daysInMonth false (civilMonth doe) := by
        unfold daysInMonth
        rw [if_neg hfeb, if_neg hfeb]
      rw [this]
      rw [if_neg hfeb] at hm4
      exact hm4
  · intro hy399 hm2'
    have h306 := hm5 hm2'
    rw [hdoy, hy399] at h306
    have h145731 : yearStartDoe 399 = 145731 := by decide
    omega

theorem isLeap_add_400 (k x : Nat) : isLeap (400 * k + x) = isLeap x := by
  unfold isLeap
  have e4 : (400 * k + x) % 4 = x % 4 := by omega
  have e100 : (400 * k + x) % 100 = x % 100 := by omega
  have e400 : (400 * k + x) % 400 = x % 400 := by omega
  rw [e4, e100, e400]

/-- Round trip and validity of the civil-date conversion on the covered
range of shifted day numbers (1970-01-01 .. 9999-12-31). -/
theorem civil_days_roundtrip (zz : Nat) (h1 : 865565 ≤ zz) (h2 : zz ≤ 3798461) :
    daysFromCivil (civilFromDays zz).year (civilFromDays zz).month (civilFromDays zz).day = zz ∧
    1 ≤ (civilFromDays zz).month ∧ (civilFromDays zz).month ≤ 12 ∧
    1 ≤ (civilFromDays zz).day ∧
    (civilFromDays zz).day ≤ daysInMonth (isLeap (civilFromDays zz).year) (civilFromDays zz).month ∧
    (civilFromDays zz).year ≤ 9999 := by
  have hdoe : zz % 146097 < 146097 := Nat.mod_lt _ (by omega)
  obtain ⟨hrt, hm1, hm2, hd1, hd2, hyoe, hlast⟩ := core_correct (zz % 146097) hdoe
  have hera1 : 5 ≤ zz / 146097 := by omega
  have hera2 : zz / 146097 ≤ 25 := by omega
  have hdm : zz = 146097 * (zz / 146097) + zz % 146097 := (Nat.div_add_mod zz 146097).symm
  have hyear : (civilFromDays zz).year = (zz / 146097) * 400 + yoeOf (zz % 146097) +
      (if civilMonth (zz % 146097) ≤ 2 then 1 else 0) - 400 := rfl
  have hmon : (civilFromDays zz).month = civilMonth (zz % 146097) := rfl
  have hday : (civilFromDays zz).day = civilDay (zz % 146097) := rfl
  -- abbreviations
  set era := zz / 146097 with hera
  set doe := zz % 146097 with hdoee
  set yoe := yoeOf doe with hyoee
  set m := civilMonth doe with hmm
  -- the March-based shift used by daysFromCivil recovers era * 400 + yoe
  have hshift : (if m ≤ 2 then (civilFromDays zz).year + 399
      else (civilFromDays zz).year + 400) = era * 400 + yoe := by
    rw [hyear]
    by_cases hc : m ≤ 2
    · rw [if_pos hc, if_pos hc]
      omega
    · rw [if_neg hc, if_neg hc]
      omega
  have hdiv : (era * 400 + yoe) / 400 = era := by omega
  have hmod : (era * 400 + yoe) % 400 = yoe := by omega
  have hleap : isLeap (civilFromDays zz).year = isLeap (yoe + 1) ∨ ¬ m = 2 := by
    by_cases hc : m ≤ 2
    · left
      rw [hyear, if_pos hc]
      have hy : era * 400 + yoe + 1 - 400 = 400 * (era - 1) + (yoe + 1) := by omega
      rw [hy, isLeap_add_400]
    · right
      omega
  refine ⟨?_, ?_, ?_, ?_, ?_, ?_⟩
  · unfold daysFromCivil
    rw [hmon, hday, hshift, hdiv, hmod, hrt]
    omega
  · rw [hmon]; exact hm1
  · rw [hmon]; exact hm2
  · rw [hday]; exact hd1
  · rw [hmon, hday]
    rcases hleap with hl | hl
    · rw [hl]
      exact hd2
    · have : daysInMonth (isLeap (civilFromDays zz).year) m = daysInMonth false m := by
        unfold daysInMonth
        rw [if_neg hl, if_neg hl]
      rw [this]
      have : daysInMonth (isLeap (yoe + 1)) m = daysInMonth false m := by
        unfold daysInMonth
        rw [if_neg hl, if_neg hl]
      omega
  · rw [hyear]
    by_cases he : era ≤ 24
    · by_cases hc : m ≤ 2 <;> [rw [if_pos hc]; rw [if_neg hc]] <;> omega
    · have he25 : era = 25 := by omega
      have hdoe36 : doe ≤ 146036 := by omega
      have hnot : ¬ (yoe = 399 ∧ m ≤ 2) := by
        rintro ⟨hy, hmle⟩
        exact absurd (hlast hy hmle) (by omega)
      by_cases hc : m ≤ 2
      · rw [if_pos hc]
        have : yoe ≤ 398 := by
          rcases Nat.lt_or_ge yoe 399 with h | h
          · omega
          · exact absurd ⟨by omega, hc⟩ hnot
        omega
      · rw [if_neg hc]
        omega

/-! ## Milliseconds-since-epoch instants: printing and parsing

Models Date.prototype.toISOString and the ISO8601 date-time string forms
accepted by new Date(...) (ECMA-262 date-time string format): the date part
YYYY[-MM[-DD]], an optional time part THH:mm[:ss[.sss]], and an optional
offset (absent = local time = UTC here, Z, or a +HH:MM / -HH:MM shift).
Non-ISO fallback date formats of particular engines are outside the model;
they never round-trip through toISOString, so isValidTimestamp rejects them
exactly as the source does.  Instants before the epoch parse to none here
(model restriction, see the header comment).
-/

/-- Decimal digit character for a digit value (values above 9 clamp to 9;
all uses pass reduced digits). -/
def dc : Nat → Char
  | 0 => '0' | 1 => '1' | 2 => '2' | 3 => '3' | 4 => '4'
  | 5 => '5' | 6 => '6' | 7 => '7' | 8 => '8' | _ => '9'

def isDigitCh (c : Char) : Bool := 48 ≤ c.toNat && c.toNat ≤ 57

def digitVal (c : Char) : Nat := c.toNat - 48

/-- Two-digit zero-padded decimal rendering (modulo 100). -/
def pad2 (n : Nat) : List Char := [dc (n / 10 % 10), dc (n % 10)]

/-- Three-digit zero-padded decimal rendering (modulo 1000). -/
def pad3 (n : Nat) : List Char := [dc (n / 100 % 10), dc (n / 10 % 10), dc (n % 10)]

/-- Four-digit zero-padded decimal rendering (modulo 10000). -/
def pad4 (n : Nat) : List Char :=
  [dc (n / 1000 % 10), dc (n / 100 % 10), dc (n / 10 % 10), dc (n % 10)]

/-- UTC calendar and clock fields of an instant, as used by toISOString. -/
structure DateFields where
  year : Nat
  month : Nat
  day : Nat
  hour : Nat
  minute : Nat
  second : Nat
  milli : Nat
deriving DecidableEq, Repr

def fieldsOfMs (t : Nat) : DateFields :=
  { year := (civilFromDays (t / 86400000 + 865565)).year
    month := (civilFromDays (t / 86400000 + 865565)).month
    day := (civilFromDays (t / 86400000 + 865565)).day
    hour := t % 86400000 / 3600000
    minute := t % 86400000 % 3600000 / 60000
    second := t % 86400000 % 60000 / 1000
    milli := t % 86400000 % 1000 }

/-- Character stream of the canonical serialization YYYY-MM-DDTHH:mm:ss.sssZ. -/
def isoChars (t : Nat) : List Char :=
  pad4 (fieldsOfMs t).year ++ '-' :: (pad2 (fieldsOfMs t).month ++ '-' ::
    (pad2 (fieldsOfMs t).day ++ 'T' :: (pad2 (fieldsOfMs t).hour ++ ':' ::
      (pad2 (fieldsOfMs t).minute ++ ':' :: (pad2 (fieldsOfMs t).second ++ '.' ::
        (pad3 (fieldsOfMs t).milli ++ ['Z']))))))

/-- Model of Date.prototype.toISOString on the covered range. -/
def toISOString (t : Nat) : String := String.mk (isoChars t)

/-- Read one decimal digit. -/
def readDigit : List Char → Option (Nat × List Char)
  | [] => none
  | c :: cs => if isDigitCh c then some (digitVal c, cs) else none

/-- Read exactly two decimal digits. -/
def read2 (cs : List Char) : Option (Nat × List Char) :=
  match readDigit cs with
  | none => none
  | some (a, r) =>
    match readDigit r with
    | none => none
    | some (b, r2) => some (10 * a + b, r2)

/-- Read exactly three decimal digits. -/
def read3 (cs : List Char) : Option (Nat × List Char) :=
  match read2 cs with
  | none => none
  | some (a, r) =>
    match readDigit r with
    | none => none
    | some (b, r2) => some (10 * a + b, r2)

/-- Read exactly four decimal digits. -/
def read4 (cs : List Char) : Option (Nat × List Char) :=
  match read3 cs with
  | none => none
  | some (a, r) =>
    match readDigit r with
    | none => none
    | some (b, r2) => some (10 * a + b, r2)

/-- Parse the numeric body of a +HH:MM / -HH:MM offset; neg records the sign. -/
def parseOffsetHM (neg : Bool) (r : List Char) : Option (Bool × Nat) :=
  match read2 r with
  | none => none
  | some (oh, r1) =>
    match r1 with
    | c :: r2 =>
      if c = ':' then
        match read2 r2 with
        | none => none
        | some (om, r3) =>
          if r3 = [] ∧ oh ≤ 23 ∧ om ≤ 59 then some (neg, 60 * oh + om) else none
      else none
    | [] => none

/-- Parse the time-zone designator: absent (= UTC here), Z, or signed HH:MM. -/
def parseOffset : List Char → Option (Bool × Nat)
  | [] => some (false, 0)
  | c :: r =>
    if c = 'Z' then (if r = [] then some (false, 0) else none)
    else if c = '+' then parseOffsetHM false r
    else if c = '-' then parseOffsetHM true r
    else none

/-- Validate clock fields and attach the offset; yields ms-of-day and offset. -/
def finishTime (h mi s ms : Nat) (rest : List Char) : Option (Nat × Bool × Nat) :=
  if (h ≤ 23 ∨ (h = 24 ∧ mi = 0 ∧ s = 0 ∧ ms = 0)) ∧ mi ≤ 59 ∧ s ≤ 59 then
    match parseOffset rest with
    | none => none
    | some (neg, offMin) => some (3600000 * h + 60000 * mi + 1000 * s + ms, neg, offMin)
  else none

/-- Parse HH:mm[:ss[.sss]] followed by an optional offset. -/
def parseTime (r : List Char) : Option (Nat × Bool × Nat) :=
  match read2 r with
  | none => none
  | some (h, r1) =>
    match r1 with
    | [] => none
    | c :: r2 =>
      if c = ':' then
        match read2 r2 with
        | none => none
        | some (mi, r3) =>
          match r3 with
          | c2 :: r4 =>
            if c2 = ':' then
              match read2 r4 with
              | none => none
              | some (s, r5) =>
                match r5 with
                | c3 :: r6 =>
                  if c3 = '.' then
                    match read3 r6 with
                    | none => none
                    | some (ms, r7) => finishTime h mi s ms r7
                  else finishTime h mi s 0 r5
                | [] => finishTime h mi s 0 []
            else finishTime h mi 0 0 r3
          | [] => finishTime h mi 0 0 []
      else none

/-- Validate the calendar fields and assemble the final instant. -/
def finishDate (y mo d tod : Nat) (neg : Bool) (offMin : Nat) : Option Nat :=
  if 1 ≤ mo ∧ mo ≤ 12 ∧ 1 ≤ d ∧ d ≤ daysInMonth (isLeap y) mo then
    if daysFromCivil y mo d < 865565 then none
    else
      if neg then some ((daysFromCivil y mo d - 865565) * 86400000 + tod + offMin * 60000)
      else if (daysFromCivil y mo d - 865565) * 86400000 + tod < offMin * 60000 then none
      else some ((daysFromCivil y mo d - 865565) * 86400000 + tod - offMin * 60000)
  else none

/-- Model of new Date(s) on ISO8601 date-time strings: the parsed instant in
ms since the epoch, or none when the string does not parse to a covered
instant (JS would yield an Invalid Date for the none cases within the
covered range). -/
def parseDate (cs : List Char) : Option Nat :=
  match read4 cs with
  | none => none
  | some (y, r) =>
    match r with
    | [] => finishDate y 1 1 0 false 0
    | c :: r2 =>
      if c = 'T' then
        match parseTime r2 with
        | none => none
        | some (tod, neg, offMin) => finishDate y 1 1 tod neg offMin
      else if c = '-' then
        match read2 r2 with
        | none => none
        | some (mo, r3) =>
          match r3 with
          | [] => finishDate y mo 1 0 false 0
          | c2 :: r4 =>
            if c2 = 'T' then
              match parseTime r4 with
              | none => none
              | some (tod, neg, offMin) => finishDate y mo 1 tod neg offMin
            else if c2 = '-' then
              match read2 r4 with
              | none => none
              | some (d, r5) =>
                match r5 with
                | [] => finishDate y mo d 0 false 0
                | c3 :: r6 =>
                  if c3 = 'T' then
                    match parseTime r6 with
                    | none => none
                    | some (tod, neg, offMin) => finishDate y mo d tod neg offMin
                  else none
            else none
      else none

/-! ### The canonical serialization parses back to the same instant -/

theorem dc_digit : ∀ k : Nat, k < 10 → isDigitCh (dc k) = true ∧ digitVal (dc k) = k := by
  decide

theorem readDigit_dc (k : Nat) (hk : k < 10) (rest : List Char) :
    readDigit (dc k :: rest) = some (k, rest) := by
  obtain ⟨h1, h2⟩ := dc_digit k hk
  simp [readDigit, h1, h2]

theorem read2_pad2 (n : Nat) (rest : List Char) :
    read2 (pad2 n ++ rest) = some (n % 100, rest) := by
  have ha := readDigit_dc (n / 10 % 10) (Nat.mod_lt _ (by omega)) (dc (n % 10) :: rest)
  have hb := readDigit_dc (n % 10) (Nat.mod_lt _ (by omega)) rest
  simp [pad2, read2, ha, hb]
  omega

theorem read3_pad3 (n : Nat) (rest : List Char) :
    read3 (pad3 n ++ rest) = some (n % 1000, rest) := by
  have ha := readDigit_dc (n / 100 % 10) (Nat.mod_lt _ (by omega))
    (dc (n / 10 % 10) :: dc (n % 10) :: rest)
  have hb := readDigit_dc (n / 10 % 10) (Nat.mod_lt _ (by omega)) (dc (n % 10) :: rest)
  have hcx := readDigit_dc (n % 10) (Nat.mod_lt _ (by omega)) rest
  simp [pad3, read3, read2, ha, hb, hcx]
  omega

theorem read4_pad4 (n : Nat) (rest : List Char) :
    read4 (pad4 n ++ rest) = some (n % 10000, rest) := by
  have ha := readDigit_dc (n / 1000 % 10) (Nat.mod_lt _ (by omega))
    (dc (n / 100 % 10) :: dc (n / 10 % 10) :: dc (n % 10) :: rest)
  have hb := readDigit_dc (n / 100 % 10) (Nat.mod_lt _ (by omega))
    (dc (n / 10 % 10) :: dc (n % 10) :: rest)
  have hcx := readDigit_dc (n / 10 % 10) (Nat.mod_lt _ (by omega)) (dc (n % 10) :: rest)
  have hd := readDigit_dc (n % 10) (Nat.mod_lt _ (by omega)) rest
  simp [pad4, read4, read3, read2, ha, hb, hcx, hd]
  omega

theorem parseTime_canonical (hh mi ss ms : Nat)
    (h1 : hh ≤ 23) (h2 : mi ≤ 59) (h3 : ss ≤ 59) (h4 : ms ≤ 999) :
    parseTime (pad2 hh ++ ':' :: (pad2 mi ++ ':' :: (pad2 ss ++ '.' :: (pad3 ms ++ ['Z'])))) =
      some (3600000 * hh + 60000 * mi + 1000 * ss + ms, false, 0) := by
  have e1 := read2_pad2 hh (':' :: (pad2 mi ++ ':' :: (pad2 ss ++ '.' :: (pad3 ms ++ ['Z']))))
  have e2 := read2_pad2 mi (':' :: (pad2 ss ++ '.' :: (pad3 ms ++ ['Z'])))
  have e3 := read2_pad2 ss ('.' :: (pad3 ms ++ ['Z']))
  have e4 := read3_pad3 ms ['Z']
  have m1 : hh % 100 = hh := Nat.mod_eq_of_lt (by omega)
  have m2 : mi % 100 = mi := Nat.mod_eq_of_lt (by omega)
  have m3 : ss % 100 = ss := Nat.mod_eq_of_lt (by omega)
  have m4 : ms % 1000 = ms := Nat.mod_eq_of_lt (by omega)
  rw [m1] at e1
  rw [m2] at e2
  rw [m3] at e3
  rw [m4] at e4
  simp [parseTime, e1, e2, e3, e4, finishTime, parseOffset]
  omega

/-- Every month has at most 31 days. -/
theorem daysInMonth_le (leap : Bool) (m : Nat) : daysInMonth leap m ≤ 31 := by
  unfold daysInMonth
  split
  · split <;> omega
  · split <;> omega

/-- Unfolding of the canonical serialization into its character groups. -/
theorem iso_expand (t : Nat) : isoChars t = pad4 (civilFromDays (t / 86400000 + 865565)).year ++ '-' ::
      (pad2 (civilFromDays (t / 86400000 + 865565)).month ++ '-' ::
        (pad2 (civilFromDays (t / 86400000 + 865565)).day ++ 'T' ::
          (pad2 (t % 86400000 / 3600000) ++ ':' ::
            (pad2 (t % 86400000 % 3600000 / 60000) ++ ':' ::
              (pad2 (t % 86400000 % 60000 / 1000) ++ '.' ::
                (pad3 (t % 86400000 % 1000) ++ ['Z'])))))) := rfl

/-- The canonical toISOString serialization of any covered instant parses
back to exactly that instant. -/
theorem parseDate_isoChars (t : Nat) (h : t < 253402300800000) :
    parseDate (isoChars t) = some t := by
  have hb1 : 865565 ≤ t / 86400000 + 865565 := by omega
  have hb2 : t / 86400000 + 865565 ≤ 3798461 := by omega
  obtain ⟨hrt, hm1, hm2, hd1, hd2, hy⟩ := civil_days_roundtrip _ hb1 hb2
  have hy4 : (civilFromDays (t / 86400000 + 865565)).year % 10000 =
      (civilFromDays (t / 86400000 + 865565)).year := Nat.mod_eq_of_lt (by omega)
  have hmo2 : (civilFromDays (t / 86400000 + 865565)).month % 100 =
      (civilFromDays (t / 86400000 + 865565)).month := Nat.mod_eq_of_lt (by omega)
  have hdy2 : (civilFromDays (t / 86400000 + 865565)).day % 100 =
      (civilFromDays (t / 86400000 + 865565)).day := by
    have h31 := daysInMonth_le (isLeap (civilFromDays (t / 86400000 + 865565)).year)
      (civilFromDays (t / 86400000 + 865565)).month
    exact Nat.mod_eq_of_lt (by omega)
  have e4 := read4_pad4 (civilFromDays (t / 86400000 + 865565)).year
    ('-' :: (pad2 (civilFromDays (t / 86400000 + 865565)).month ++ '-' ::
      (pad2 (civilFromDays (t / 86400000 + 865565)).day ++ 'T' ::
        (pad2 (t % 86400000 / 3600000) ++ ':' ::
          (pad2 (t % 86400000 % 3600000 / 60000) ++ ':' ::
            (pad2 (t % 86400000 % 60000 / 1000) ++ '.' ::
              (pad3 (t % 86400000 % 1000) ++ ['Z'])))))))
  rw [hy4] at e4
  have emo := read2_pad2 (civilFromDays (t / 86400000 + 865565)).month
    ('-' :: (pad2 (civilFromDays (t / 86400000 + 865565)).day ++ 'T' ::
      (pad2 (t % 86400000 / 3600000) ++ ':' ::
        (pad2 (t % 86400000 % 3600000 / 60000) ++ ':' ::
          (pad2 (t % 86400000 % 60000 / 1000) ++ '.' ::
            (pad3 (t % 86400000 % 1000) ++ ['Z']))))))
  rw [hmo2] at emo
  have edy := read2_pad2 (civilFromDays (t / 86400000 + 865565)).day
    ('T' :: (pad2 (t % 86400000 / 3600000) ++ ':' ::
      (pad2 (t % 86400000 % 3600000 / 60000) ++ ':' ::
        (pad2 (t % 86400000 % 60000 / 1000) ++ '.' ::
          (pad3 (t % 86400000 % 1000) ++ ['Z'])))))
  rw [hdy2] at edy
  have etime := parseTime_canonical (t % 86400000 / 3600000) (t % 86400000 % 3600000 / 60000)
    (t % 86400000 % 60000 / 1000) (t % 86400000 % 1000)
    (by omega) (by omega) (by omega) (by omega)
  rw [iso_expand]
  rw [parseDate.eq_def]
  rw [e4]
  simp [emo, edy, etime, finishDate, hrt, hm1, hm2, hd1, hd2]
  omega

/-! ## JavaScript values and the validation utilities (src/utils/validation.ts)

The validator receives untrusted payloads, so the fields of a raw event are
modelled as JavaScript runtime values.  Numbers carry integer values (the
truthiness model only distinguishes zero); any object value is truthy and
opaque, which is all the core logic ever relies on.
-/

inductive JSValue where
  | undefined
  | null
  | str (s : String)
  | num (n : Int)
  | boolean (b : Bool)
  | obj
deriving DecidableEq, Repr

/-- JavaScript truthiness of a value. -/
def truthy : JSValue → Bool
  | .undefined => false
  | .null => false
  | .str s => !s.data.isEmpty
  | .num n => decide (n ≠ 0)
  | .boolean b => b
  | .obj => true

/-- Character class of the chargerId pattern [A-Za-z0-9_-]. -/
def isIdChar (c : Char) : Bool :=
  ('A' ≤ c && c ≤ 'Z') || ('a' ≤ c && c ≤ 'z') || ('0' ≤ c && c ≤ '9') || c = '_' || c = '-'

/-- Validates chargerId format; false for any falsy or non-string value,
otherwise tests the anchored pattern [A-Za-z0-9_-]+. -/
def isValidChargerId (chargerId : JSValue) : Bool :=
  match chargerId with
  | .str s => if s.data.isEmpty then false else s.data.all isIdChar
  | _ => false

/-- Validates ISO8601 timestamp format: false for falsy or non-string
values; otherwise the string must parse as a Date whose toISOString
round-trip equals the input exactly. -/
def isValidTimestamp (timestamp : JSValue) : Bool :=
  match timestamp with
  | .str s =>
    if s.data.isEmpty then false
    else
      match parseDate s.data with
      | none => false
      | some t => toISOString t == s
  | _ => false

/-- Checks if a parsed timestamp is in the future beyond the 5-minute
clock-skew tolerance, given the current time. -/
def isFutureTimestamp (timestamp now : Nat) : Bool :=
  decide (now + 5 * 60 * 1000 < timestamp)

/-! ## Event types (src/types/telemetry.ts) and the validator
(src/lambda/validator/index.ts) -/

/-- Incoming raw event from IoT chargers; untrusted, fields may hold any
runtime value. -/
structure TelemetryEvent where
  chargerId : JSValue
  timestamp : JSValue
  data : JSValue
deriving DecidableEq, Repr

/-- Event after validation; the timestamp is the parsed instant. -/
structure ValidatedEvent where
  chargerId : String
  timestamp : Nat
  data : JSValue
deriving DecidableEq, Repr

inductive RejectionReason where
  | MissingChargerId
  | MissingTimestamp
  | InvalidChargerIdFormat
  | InvalidTimestampFormat
  | FutureTimestamp
deriving DecidableEq, Repr

/-- Result of validateEvent.  The source also carries a human-readable
error string next to the rejection reason; the string is observability
text interpolated from the event and is not modelled. -/
inductive ValidationResult where
  | invalid (rejectionReason : RejectionReason)
  | valid (validatedEvent : ValidatedEvent)
deriving DecidableEq, Repr

/-- Model of new Date(v) for the validated-path coercion. -/
def jsNewDate : JSValue → Option Nat
  | .str s => parseDate s.data
  | _ => none

/-- Validates a telemetry event: presence (truthiness) of chargerId and
timestamp, chargerId format, timestamp format, then the future check on the
parsed timestamp.  First failing check determines the rejection reason. -/
def validateEvent (now : Nat) (event : TelemetryEvent) : ValidationResult :=
  if truthy event.chargerId = false then .invalid .MissingChargerId
  else if truthy event.timestamp = false then .invalid .MissingTimestamp
  else if isValidChargerId event.chargerId = false then .invalid .InvalidChargerIdFormat
  else if isValidTimestamp event.timestamp = false then .invalid .InvalidTimestampFormat
  else
    match event.chargerId, jsNewDate event.timestamp with
    | .str cid, some t =>
      if isFutureTimestamp t now then .invalid .FutureTimestamp
      else .valid { chargerId := cid, timestamp := t, data := event.data }
    | _, _ => .invalid .InvalidTimestampFormat  -- unreachable: guarded by the checks above

/-! ## Validator Lambda handler (src/lambda/validator/index.ts)

The handler validates, publishes an EventsRejected or EventsValidated
metric, and forwards valid events to the Processor Lambda.  A thrown
exception is modelled as the error branch of the outcome; the result of the
asynchronous invoke call is a parameter.  Metric publication failures are
swallowed by the source and are not modelled as a failure source.
-/

structure ValidatorRun where
  outcome : Except String Unit
  rejectedMetric : Option RejectionReason
  validatedMetric : Bool
  invoked : Option ValidatedEvent
deriving Repr

def validatorHandler (now : Nat) (invokeResult : Except String Unit)
    (event : TelemetryEvent) : ValidatorRun :=
  match validateEvent now event with
  | .invalid reason =>
    -- invalid events are logged and counted but not retried: normal return
    { outcome := .ok (), rejectedMetric := some reason,
      validatedMetric := false, invoked := none }
  | .valid validatedEvent =>
    match invokeResult with
    | .ok _ =>
      { outcome := .ok (), rejectedMetric := none,
        validatedMetric := true, invoked := some validatedEvent }
    | .error e =>
      -- invoke failure is re-thrown so the Lambda retry mechanism handles it
      { outcome := .error e, rejectedMetric := none,
        validatedMetric := true, invoked := some validatedEvent }

/-! ## Processor Lambda (src/lambda/processor/index.ts) -/

structure EventMetadata where
  receivedAt : Nat
  processedAt : Nat
deriving DecidableEq, Repr

/-- Event after processing with metadata. -/
structure ProcessedEvent where
  eventId : String
  chargerId : String
  timestamp : Nat
  data : JSValue
  metadata : EventMetadata
deriving DecidableEq, Repr

structure StoredMetadata where
  receivedAt : String
  processedAt : String
deriving DecidableEq, Repr

/-- Event format in DynamoDB: all dates serialized to ISO8601 strings, plus
the ttl expiry stamp in unix seconds. -/
structure StoredEvent where
  eventId : String
  chargerId : String
  timestamp : String
  data : JSValue
  metadata : StoredMetadata
  ttl : Nat
deriving DecidableEq, Repr

def TTL_DAYS : Nat := 90

/-- Enriches a validated event with metadata; uuid is the freshly generated
random eventId and now the single captured instant (new Date()). -/
def enrichEvent (uuid : String) (now : Nat) (validatedEvent : ValidatedEvent) :
    ProcessedEvent :=
  { eventId := uuid
    chargerId := validatedEvent.chargerId
    timestamp := validatedEvent.timestamp
    data := validatedEvent.data
    metadata := { receivedAt := now, processedAt := now } }

/-- Converts a ProcessedEvent to StoredEvent format for DynamoDB; nowWrite
is the Date.now() reading used for the ttl computation. -/
def toStoredEvent (nowWrite : Nat) (processedEvent : ProcessedEvent) : StoredEvent :=
  { eventId := processedEvent.eventId
    chargerId := processedEvent.chargerId
    timestamp := toISOString processedEvent.timestamp
    data := processedEvent.data
    metadata :=
      { receivedAt := toISOString processedEvent.metadata.receivedAt
        processedAt := toISOString processedEvent.metadata.processedAt }
    ttl := nowWrite / 1000 + TTL_DAYS * 24 * 60 * 60 }

/-- Modelled from the spec: store-deserialization.  The repository has no
reader that converts a stored item back to a ProcessedEvent (the query path
serves the stored strings as-is), so the spec's store-deserialization of
section 8 is modelled as parsing each ISO8601 string of the stored item
back to its instant. -/
def fromStoredEvent (storedEvent : StoredEvent) : Option ProcessedEvent :=
  match parseDate storedEvent.timestamp.data,
      parseDate storedEvent.metadata.receivedAt.data,
      parseDate storedEvent.metadata.processedAt.data with
  | some t, some r, some p =>
    some { eventId := storedEvent.eventId
           chargerId := storedEvent.chargerId
           timestamp := t
           data := storedEvent.data
           metadata := { receivedAt := r, processedAt := p } }
  | _, _, _ => none

structure ProcessorRun where
  outcome : Except String Unit
  stored : Option StoredEvent
  successMetric : Bool
  failureMetric : Bool
deriving Repr

/-- Processor Lambda handler: enrich, convert to storage format, store, and
publish metrics; a store failure publishes failure metrics and re-throws
the error so Lambda retries and eventually dead-letters the event. -/
def processorHandler (uuid : String) (nowEnrich nowWrite : Nat)
    (storeResult : Except String Unit) (event : ValidatedEvent) : ProcessorRun :=
  match storeResult with
  | .ok _ =>
    { outcome := .ok ()
      stored := some (toStoredEvent nowWrite (enrichEvent uuid nowEnrich event))
      successMetric := true, failureMetric := false }
  | .error e =>
    { outcome := .error e, stored := none,
      successMetric := false, failureMetric := true }

/-! ## Query Lambda (src/lambda/query/index.ts) -/

/-- Response from the query endpoint (shape of the 200 body). -/
structure QueryResponse where
  chargerId : String
  timestamp : String
  data : JSValue
  metadata : StoredMetadata
deriving DecidableEq, Repr

inductive QueryBody where
  | errorBody (message : String)      -- status "error"
  | notFoundBody (message : String)   -- status "not_found"
  | successBody (response : QueryResponse)
deriving DecidableEq, Repr

structure QueryResult where
  statusCode : Nat
  body : QueryBody
  queryDurationMetrics : Nat
deriving DecidableEq, Repr

/-- Query Lambda handler: chargerId comes from the path parameters (none
when absent); storeResult is the outcome of the DynamoDB query, descending
by sort key, limited to one item (the error branch models a thrown
exception, caught by the handler).  queryDurationMetrics counts the
QueryDuration measurements published during the call. -/
def queryHandler (chargerId : Option String)
    (storeResult : Except String (List StoredEvent)) : QueryResult :=
  match chargerId with
  | none =>
    { statusCode := 400
      body := .errorBody "Missing required path parameter: chargerId"
      queryDurationMetrics := 0 }
  | some cid =>
    if cid.data.isEmpty then
      { statusCode := 400
        body := .errorBody "Missing required path parameter: chargerId"
        queryDurationMetrics := 0 }
    else
      match storeResult with
      | .error _ =>
        { statusCode := 500
          body := .errorBody "Internal server error"
          queryDurationMetrics := 1 }
      | .ok items =>
        match items with
        | [] =>
          { statusCode := 404
            body := .notFoundBody "No telemetry found for charger"
            queryDurationMetrics := 1 }
        | storedEvent :: _ =>
          { statusCode := 200
            body := .successBody
              { chargerId := storedEvent.chargerId
                timestamp := storedEvent.timestamp
                data := storedEvent.data
                metadata :=
                  { receivedAt := storedEvent.metadata.receivedAt
                    processedAt := storedEvent.metadata.processedAt } }
            queryDurationMetrics := 1 }

/-! ## Health Lambda (src/lambda/health/index.ts) -/

inductive Health where
  | healthy
  | degraded
  | unhealthy
deriving DecidableEq, Repr

/-- DynamoDB health check: healthy only when the DescribeTable call
succeeds and reports an ACTIVE table. -/
def checkDynamoDBHealth (describeResult : Except String String) : Health :=
  match describeResult with
  | .ok tableStatus => if tableStatus = "ACTIVE" then .healthy else .unhealthy
  | .error _ => .unhealthy

/-- SQS dead-letter-queue health check: healthy with depth 0 when no DLQ is
configured or when the attribute read fails; otherwise degraded exactly
when the depth exceeds 10. -/
def checkDLQHealth (dlqUrl : Option String) (readResult : Except String Nat) :
    Health × Nat :=
  match dlqUrl with
  | none => (.healthy, 0)
  | some _ =>
    match readResult with
    | .error _ => (.healthy, 0)
    | .ok depth => (if depth > 10 then .degraded else .healthy, depth)

structure ComponentStatus where
  dynamodb : Health
  dlq : Option Health
  dlqDepth : Option Nat
deriving DecidableEq, Repr

structure HealthResult where
  statusCode : Nat
  status : Health
  components : ComponentStatus
deriving DecidableEq, Repr

/-- Health Lambda handler: runs both sub-checks (concurrently in the
source; their results are independent parameters here) and combines them
into the overall verdict. -/
def healthHandler (dlqUrl : Option String) (describeResult : Except String String)
    (readResult : Except String Nat) : HealthResult :=
  { statusCode := 200
    status :=
      if checkDynamoDBHealth describeResult = .unhealthy then .unhealthy
      else if (checkDLQHealth dlqUrl readResult).1 = .degraded then .degraded
      else .healthy
    components :=
      match dlqUrl with
      | none =>
        { dynamodb := checkDynamoDBHealth describeResult, dlq := none, dlqDepth := none }
      | some _ =>
        { dynamodb := checkDynamoDBHealth describeResult
          dlq := some (checkDLQHealth dlqUrl readResult).1
          dlqDepth := some (checkDLQHealth dlqUrl readResult).2 } }

/-! ## Claim theorems -/

theorem String_data_empty_iff (s : String) : s.data.isEmpty = true ↔ s = "" := by
  cases s with
  | mk l =>
    cases l with
    | nil => simp
    | cons c cs => simp [String.ext_iff]

/-- C8: enrich produces a record whose recordId is exactly the freshly
generated uuid (hence never derived from the input event), and whose
receivedAt and processedAt both come from the single captured now instant
and are therefore equal. -/
theorem C8_enrich_fresh_id_single_now (uuid : String) (now : Nat) (v w : ValidatedEvent) :
    (enrichEvent uuid now v).metadata.receivedAt = (enrichEvent uuid now v).metadata.processedAt ∧
    (enrichEvent uuid now v).metadata.receivedAt = now ∧
    (enrichEvent uuid now v).eventId = uuid ∧
    (enrichEvent uuid now v).eventId = (enrichEvent uuid now w).eventId := ⟨rfl, rfl, rfl, rfl⟩

/-- C3: the overall health verdict is unhealthy exactly when the store
sub-check is unhealthy; otherwise it is degraded exactly when the
dead-letter sub-check is degraded, which happens exactly when a configured
dead-letter depth read succeeds with depth above 10; an unconfigured
dead-letter resource or a failed depth read yields the healthy/0 sub-check
result and can never push the overall verdict below healthy. -/
theorem C3_health_verdict (dlqUrl : Option String) (describeResult : Except String String)
    (readResult : Except String Nat) :
    ((healthHandler dlqUrl describeResult readResult).status = .unhealthy ↔
      checkDynamoDBHealth describeResult = .unhealthy) ∧
    (checkDynamoDBHealth describeResult ≠ .unhealthy →
      ((healthHandler dlqUrl describeResult readResult).status = .degraded ↔
        (checkDLQHealth dlqUrl readResult).1 = .degraded)) ∧
    (checkDynamoDBHealth describeResult ≠ .unhealthy →
      (checkDLQHealth dlqUrl readResult).1 ≠ .degraded →
      (healthHandler dlqUrl describeResult readResult).status = .healthy) ∧
    (∀ depth, dlqUrl.isSome → readResult = .ok depth →
      ((checkDLQHealth dlqUrl readResult).1 = .degraded ↔ depth > 10)) ∧
    (dlqUrl = none → checkDLQHealth dlqUrl readResult = (.healthy, 0)) ∧
    (∀ e, readResult = .error e → checkDLQHealth dlqUrl readResult = (.healthy, 0)) ∧
    ((dlqUrl = none ∨ ∃ e, readResult = .error e) →
      (healthHandler dlqUrl describeResult readResult).status ≠ .degraded) := by
  have hst : (healthHandler dlqUrl describeResult readResult).status =
      (if checkDynamoDBHealth describeResult = .unhealthy then Health.unhealthy
       else if (checkDLQHealth dlqUrl readResult).1 = .degraded then .degraded
       else .healthy) := rfl
  refine ⟨?_, ?_, ?_, ?_, ?_, ?_, ?_⟩
  · rw [hst]
    split <;> rename_i h1
    · simp [h1]
    · split <;> simp [h1]
  · intro hd
    rw [hst, if_neg hd]
    split <;> rename_i h2 <;> simp [h2]
  · intro hd hq
    rw [hst, if_neg hd, if_neg hq]
  · intro depth hs hr
    subst hr
    match dlqUrl, hs with
    | some u, _ =>
      unfold checkDLQHealth
      split <;> rename_i h1 <;> simp_all
  · intro h
    subst h
    rfl
  · intro e h
    subst h
    unfold checkDLQHealth
    cases dlqUrl <;> rfl
  · intro h
    have hdlq : (checkDLQHealth dlqUrl readResult).1 = .healthy := by
      rcases h with h | ⟨e, h⟩
      · subst h
        rfl
      · subst h
        unfold checkDLQHealth
        cases dlqUrl <;> rfl
    rw [hst]
    split
    · simp
    · rw [if_neg (by rw [hdlq]; simp)]
      simp

/-- C3 witness: with the store active, no dead-letter queue configured and
a failing depth read the verdict is healthy and the sub-check facts hold. -/
theorem C3_health_verdict_witness :
    (healthHandler none (.ok "ACTIVE") (.error "boom")).status = .healthy ∧
    checkDLQHealth none (.error "boom") = (.healthy, 0) ∧
    (healthHandler none (.ok "ACTIVE") (.error "boom")).status ≠ .degraded := by
  have h := C3_health_verdict none (.ok "ACTIVE") (.error "boom")
  refine ⟨?_, h.2.2.2.2.1 rfl, h.2.2.2.2.2.2 (Or.inl rfl)⟩
  exact h.2.2.1 (by decide) (by rw [h.2.2.2.2.1 rfl]; decide)

/-- C2: the query handler returns 400 with the client-error body for a
missing or empty chargerId, 404 (never an error) for a device with zero
stored records, 500 with a fixed generic body that does not depend on the
underlying store error (so the store error is not leaked), and in every
case a well-formed response with one of the four status codes: exceptions
never propagate. -/
theorem C2_query_error_handling (chargerId : Option String)
    (storeResult : Except String (List StoredEvent)) :
    ((chargerId = none ∨ chargerId = some "") →
      (queryHandler chargerId storeResult).statusCode = 400 ∧
      (queryHandler chargerId storeResult).body =
        .errorBody "Missing required path parameter: chargerId") ∧
    (∀ cid, chargerId = some cid → cid ≠ "" → storeResult = .ok [] →
      (queryHandler chargerId storeResult).statusCode = 404 ∧
      (queryHandler chargerId storeResult).body =
        .notFoundBody "No telemetry found for charger") ∧
    (∀ cid err, chargerId = some cid → cid ≠ "" → storeResult = .error err →
      (queryHandler chargerId storeResult).statusCode = 500 ∧
      (queryHandler chargerId storeResult).body = .errorBody "Internal server error") ∧
    ((queryHandler chargerId storeResult).statusCode = 200 ∨
      (queryHandler chargerId storeResult).statusCode = 400 ∨
      (queryHandler chargerId storeResult).statusCode = 404 ∨
      (queryHandler chargerId storeResult).statusCode = 500) := by
  refine ⟨?_, ?_, ?_, ?_⟩
  · intro h
    rcases h with h | h <;> subst h <;> simp [queryHandler]
  · intro cid hc hne hs
    subst hc
    subst hs
    have : cid.data.isEmpty = false := by
      rcases h : cid.data.isEmpty
      · rfl
      · exact absurd ((String_data_empty_iff cid).mp h) hne
    simp [queryHandler, this]
  · intro cid err hc hne hs
    subst hc
    subst hs
    have : cid.data.isEmpty = false := by
      rcases h : cid.data.isEmpty
      · rfl
      · exact absurd ((String_data_empty_iff cid).mp h) hne
    simp [queryHandler, this]
  · unfold queryHandler
    rcases chargerId with _ | cid
    · simp
    · rcases h : cid.data.isEmpty
      · simp [h]
        rcases storeResult with e | items
        · simp
        · rcases items with _ | ⟨a, rest⟩ <;> simp
      · simp [h]

/-- C2 witness: concrete instances of the three error-handling outcomes. -/
theorem C2_query_error_handling_witness :
    (queryHandler none (.ok [])).statusCode = 400 ∧
    (queryHandler (some "CHG001") (.ok [])).statusCode = 404 ∧
    (queryHandler (some "CHG001") (.error "socket timeout")).statusCode = 500 ∧
    (queryHandler (some "CHG001") (.error "socket timeout")).body =
      .errorBody "Internal server error" := by
  have h1 := (C2_query_error_handling none (.ok [])).1 (Or.inl rfl)
  have h2 := (C2_query_error_handling (some "CHG001") (.ok [])).2.1 "CHG001" rfl
    (by decide) rfl
  have h3 := (C2_query_error_handling (some "CHG001") (.error "socket timeout")).2.2.1
    "CHG001" "socket timeout" rfl (by decide) rfl
  exact ⟨h1.1, h2.1, h3.1, h3.2⟩

/-- C4 counterexample: on the 400 client-error outcome for a missing
chargerId the handler returns before the query and publishes no
QueryDuration measurement, contradicting the claim that a query-duration
measurement is emitted on every outcome including the 400 one. -/
theorem C4_counterexample :
    (queryHandler none (.ok [])).statusCode = 400 ∧
    (queryHandler none (.ok [])).queryDurationMetrics = 0 := ⟨rfl, rfl⟩

/-- C4 amended: a query-duration measurement is emitted exactly once on the
200, 404 and 500 outcomes, but none is emitted on the 400 missing-chargerId
outcome, where the handler returns before the query is issued. -/
theorem C4_metrics_amended (chargerId : Option String)
    (storeResult : Except String (List StoredEvent)) :
    (queryHandler chargerId storeResult).queryDurationMetrics =
      if chargerId = none ∨ chargerId = some "" then 0 else 1 := by
  unfold queryHandler
  rcases chargerId with _ | cid
  · simp
  · rcases h : cid.data.isEmpty
    · have hne : ¬ cid = "" := by
        intro he
        subst he
        simp at h
      simp [h, hne]
      rcases storeResult with e | items
      · simp
      · rcases items with _ | ⟨a, rest⟩ <;> simp
    · have he : cid = "" := (String_data_empty_iff cid).mp h
      subst he
      simp

theorem toISOString_data (t : Nat) : (toISOString t).data = isoChars t := rfl

theorem isoChars_ne_nil (t : Nat) : (isoChars t).isEmpty = false := by
  rw [iso_expand]
  simp [pad4]

theorem truthy_toISOString (t : Nat) : truthy (.str (toISOString t)) = true := by
  simp [truthy, toISOString_data, isoChars_ne_nil]

theorem isValidTimestamp_toISOString (t : Nat) (h : t < 253402300800000) :
    isValidTimestamp (.str (toISOString t)) = true := by
  have hp := parseDate_isoChars t h
  simp [isValidTimestamp, toISOString_data, isoChars_ne_nil, hp]

theorem jsNewDate_str (s : String) : jsNewDate (.str s) = parseDate s.data := rfl

/-- Shape of validateEvent when the chargerId is falsy. -/
theorem validateEvent_missingCharger (now : Nat) (ev : TelemetryEvent)
    (h : truthy ev.chargerId = false) :
    validateEvent now ev = .invalid .MissingChargerId := by
  unfold validateEvent
  rw [h]
  rfl

/-- Shape of validateEvent when the chargerId is truthy but the timestamp
is falsy. -/
theorem validateEvent_missingTimestamp (now : Nat) (ev : TelemetryEvent)
    (h1 : truthy ev.chargerId = true) (h2 : truthy ev.timestamp = false) :
    validateEvent now ev = .invalid .MissingTimestamp := by
  unfold validateEvent
  rw [h1, h2]
  rfl

/-- Shape of validateEvent when both fields are truthy but the chargerId
fails the format check. -/
theorem validateEvent_invalidCharger (now : Nat) (ev : TelemetryEvent)
    (h1 : truthy ev.chargerId = true) (h2 : truthy ev.timestamp = true)
    (h3 : isValidChargerId ev.chargerId = false) :
    validateEvent now ev = .invalid .InvalidChargerIdFormat := by
  unfold validateEvent
  rw [h1, h2, h3]
  rfl

/-- Shape of validateEvent when the first three checks pass but the
timestamp fails the format check. -/
theorem validateEvent_invalidTimestamp (now : Nat) (ev : TelemetryEvent)
    (h1 : truthy ev.chargerId = true) (h2 : truthy ev.timestamp = true)
    (h3 : isValidChargerId ev.chargerId = true)
    (h4 : isValidTimestamp ev.timestamp = false) :
    validateEvent now ev = .invalid .InvalidTimestampFormat := by
  unfold validateEvent
  rw [h1, h2, h3, h4]
  rfl

/-- Shape of validateEvent when all format checks pass: only the future
check decides between rejection and success. -/
theorem validateEvent_checksPassed (now : Nat) (ev : TelemetryEvent) (cid s : String)
    (t : Nat)
    (hcs : ev.chargerId = .str cid) (hts : ev.timestamp = .str s)
    (h1 : truthy ev.chargerId = true) (h2 : truthy ev.timestamp = true)
    (h3 : isValidChargerId ev.chargerId = true)
    (h4 : isValidTimestamp ev.timestamp = true)
    (hp : parseDate s.data = some t) :
    validateEvent now ev =
      (if isFutureTimestamp t now = true then .invalid .FutureTimestamp
       else .valid { chargerId := cid, timestamp := t, data := ev.data }) := by
  unfold validateEvent
  rw [h1, h2, h3, h4, hcs, hts, jsNewDate_str, hp]
  rfl

/-- The format check accepts a timestamp string exactly when it parses to
an instant whose canonical serialization is the input itself. -/
theorem isValidTimestamp_str (s : String) :
    isValidTimestamp (.str s) =
      (if s.data.isEmpty then false
       else
         match parseDate s.data with
         | none => false
         | some t => toISOString t == s) := rfl

theorem isValidTimestamp_iff (s : String) :
    isValidTimestamp (.str s) = true ↔
      ∃ t, parseDate s.data = some t ∧ toISOString t = s := by
  rw [isValidTimestamp_str]
  constructor
  · intro h
    split at h
    · exact absurd h (by simp)
    · rcases hp : parseDate s.data with _ | t
      · rw [hp] at h
        exact absurd h (by simp)
      · rw [hp] at h
        exact ⟨t, rfl, by simpa using h⟩
  · rintro ⟨t, hp, he⟩
    have hne : s.data.isEmpty = false := by
      rcases hd : s.data.isEmpty
      · rfl
      · have hs0 : s = "" := (String_data_empty_iff s).mp hd
        subst hs0
        rw [show ("" : String).data = [] from rfl] at hp
        exact absurd hp (by rw [show parseDate [] = none from rfl]; simp)
    rw [hp, if_neg (by rw [hne]; simp)]
    simp [he]

/-- A chargerId accepted by the format check is a string value. -/
theorem isValidChargerId_str (v : JSValue) (h : isValidChargerId v = true) :
    ∃ c, v = .str c := by
  cases v <;> simp [isValidChargerId] at h
  exact ⟨_, rfl⟩

/-- C6: the future-timestamp check accepts a parsed timestamp exactly when
it does not exceed now plus five minutes in exact millisecond arithmetic;
the boundary value now + 5 minutes is accepted and one millisecond more is
rejected; accordingly an otherwise valid event is rejected with
FutureTimestamp exactly when its timestamp exceeds the tolerance. -/
theorem C6_future_tolerance (t now : Nat) (h : t < 253402300800000) :
    (isFutureTimestamp t now = false ↔ t ≤ now + 5 * 60 * 1000) ∧
    isFutureTimestamp (now + 5 * 60 * 1000) now = false ∧
    isFutureTimestamp (now + 5 * 60 * 1000 + 1) now = true ∧
    validateEvent now
        { chargerId := .str "CHG001", timestamp := .str (toISOString t), data := .obj } =
      (if now + 5 * 60 * 1000 < t then .invalid .FutureTimestamp
       else .valid { chargerId := "CHG001", timestamp := t, data := .obj }) := by
  refine ⟨by simp [isFutureTimestamp], by simp [isFutureTimestamp],
    by simp [isFutureTimestamp], ?_⟩
  have hgood := validateEvent_checksPassed now
    { chargerId := .str "CHG001", timestamp := .str (toISOString t), data := .obj }
    "CHG001" (toISOString t) t rfl rfl (by rfl) (truthy_toISOString t)
    (by rfl) (isValidTimestamp_toISOString t h) (parseDate_isoChars t h)
  rw [hgood]
  by_cases hf : now + 5 * 60 * 1000 < t
  · rw [if_pos hf]
    rw [show isFutureTimestamp t now = true from decide_eq_true hf, if_pos rfl]
  · rw [if_neg hf]
    rw [show isFutureTimestamp t now = false from decide_eq_false hf,
      if_neg (by simp)]

/-- C6 witness: concrete boundary instance; a timestamp exactly five
minutes ahead of now passes validation. -/
theorem C6_future_tolerance_witness :
    isFutureTimestamp (1705314300000 + 5 * 60 * 1000) 1705314300000 = false ∧
    validateEvent 1705314300000
        { chargerId := .str "CHG001", timestamp := .str (toISOString 1705314600000),
          data := .obj } =
      .valid { chargerId := "CHG001", timestamp := 1705314600000, data := .obj } := by
  have h := C6_future_tolerance 1705314600000 1705314300000 (by decide)
  refine ⟨(C6_future_tolerance 1705314300000 1705314300000 (by decide)).2.1, ?_⟩
  rw [h.2.2.2, if_neg (by decide)]

/-- C1: validateEvent runs the five checks in the documented fixed order -
chargerId present (truthy), timestamp present (truthy), chargerId format,
timestamp canonical format, timestamp not in the future - and when several
checks are violated at once the rejection reason is that of the first
failing check in this order. -/
theorem C1_validation_order (now : Nat) (ev : TelemetryEvent) :
    (truthy ev.chargerId = false →
      validateEvent now ev = .invalid .MissingChargerId) ∧
    (truthy ev.chargerId = true → truthy ev.timestamp = false →
      validateEvent now ev = .invalid .MissingTimestamp) ∧
    (truthy ev.chargerId = true → truthy ev.timestamp = true →
      isValidChargerId ev.chargerId = false →
      validateEvent now ev = .invalid .InvalidChargerIdFormat) ∧
    (truthy ev.chargerId = true → truthy ev.timestamp = true →
      isValidChargerId ev.chargerId = true →
      isValidTimestamp ev.timestamp = false →
      validateEvent now ev = .invalid .InvalidTimestampFormat) ∧
    (∀ s t, truthy ev.chargerId = true → truthy ev.timestamp = true →
      isValidChargerId ev.chargerId = true →
      isValidTimestamp ev.timestamp = true →
      ev.timestamp = .str s → parseDate s.data = some t →
      isFutureTimestamp t now = true →
      validateEvent now ev = .invalid .FutureTimestamp) := by
  refine ⟨validateEvent_missingCharger now ev,
    validateEvent_missingTimestamp now ev,
    validateEvent_invalidCharger now ev,
    validateEvent_invalidTimestamp now ev, ?_⟩
  intro s t h1 h2 h3 h4 hts hp hf
  obtain ⟨cid, hcs⟩ := isValidChargerId_str ev.chargerId h3
  rw [validateEvent_checksPassed now ev cid s t hcs hts h1 h2 h3 h4 hp, if_pos hf]

/-- C1 witness: concrete events violating several checks at once are
rejected with the reason of the first failing check in the documented
order. -/
theorem C1_validation_order_witness :
    validateEvent 1705314600000
        { chargerId := .undefined, timestamp := .str "not-a-date", data := .obj } =
      .invalid .MissingChargerId ∧
    validateEvent 1705314600000
        { chargerId := .str "bad id!", timestamp := .undefined, data := .obj } =
      .invalid .MissingTimestamp ∧
    validateEvent 1705314600000
        { chargerId := .str "bad id!", timestamp := .str "not-a-date", data := .obj } =
      .invalid .InvalidChargerIdFormat ∧
    validateEvent 1705314600000
        { chargerId := .str "CHG001", timestamp := .str "not-a-date", data := .obj } =
      .invalid .InvalidTimestampFormat ∧
    validateEvent 1705314600000
        { chargerId := .str "CHG001", timestamp := .str "9999-01-01T00:00:00.000Z",
          data := .obj } =
      .invalid .FutureTimestamp := by
  refine ⟨(C1_validation_order 1705314600000 _).1 (by rfl),
    (C1_validation_order 1705314600000 _).2.1 (by rfl) (by rfl),
    (C1_validation_order 1705314600000 _).2.2.1 (by rfl) (by rfl) (by decide),
    (C1_validation_order 1705314600000 _).2.2.2.1 (by rfl) (by rfl) (by decide) (by decide),
    (C1_validation_order 1705314600000 _).2.2.2.2 "9999-01-01T00:00:00.000Z" 253370764800000
      (by rfl) (by rfl) (by decide) (by decide) rfl (by decide) (by decide)⟩

/-- C10: the presence checks use JavaScript truthiness: every falsy
chargerId (undefined, null, empty string, zero, false) yields
MissingChargerId and likewise a falsy timestamp yields MissingTimestamp,
while a truthy non-string chargerId passes the presence check and is
rejected by the format check, which returns false for every non-string
value. -/
theorem C10_truthiness_checks (now : Nat) (ev : TelemetryEvent) :
    (truthy ev.chargerId = false →
      validateEvent now ev = .invalid .MissingChargerId) ∧
    (truthy ev.chargerId = true → truthy ev.timestamp = false →
      validateEvent now ev = .invalid .MissingTimestamp) ∧
    (truthy .undefined = false ∧ truthy .null = false ∧ truthy (.str "") = false ∧
      truthy (.num 0) = false ∧ truthy (.boolean false) = false) ∧
    ((∀ n : Int, isValidChargerId (.num n) = false) ∧
      (∀ b : Bool, isValidChargerId (.boolean b) = false) ∧
      isValidChargerId .obj = false ∧ isValidChargerId .null = false ∧
      isValidChargerId .undefined = false) ∧
    (truthy ev.chargerId = true → (∀ c, ev.chargerId ≠ .str c) →
      truthy ev.timestamp = true →
      validateEvent now ev = .invalid .InvalidChargerIdFormat) := by
  refine ⟨validateEvent_missingCharger now ev,
    validateEvent_missingTimestamp now ev,
    by refine ⟨rfl, rfl, by decide, ?_, rfl⟩
       simp [truthy],
    ⟨fun n => rfl, fun b => rfl, rfl, rfl, rfl⟩, ?_⟩
  intro h1 hns h2
  have h3 : isValidChargerId ev.chargerId = false := by
    rcases hv : ev.chargerId with _ | _ | c | n | b
    · rfl
    · rfl
    · exact absurd hv (hns c)
    · rfl
    · rfl
    · rfl
  exact validateEvent_invalidCharger now ev h1 h2 h3

/-- C10 witness: concrete falsy chargerId values are rejected as missing,
a falsy timestamp as missing timestamp, and a truthy numeric chargerId is
rejected by the format check. -/
theorem C10_truthiness_checks_witness :
    validateEvent 1705314600000
        { chargerId := .num 0, timestamp := .str "2024-01-15T10:30:00.000Z", data := .obj } =
      .invalid .MissingChargerId ∧
    validateEvent 1705314600000
        { chargerId := .boolean false, timestamp := .str "x", data := .obj } =
      .invalid .MissingChargerId ∧
    validateEvent 1705314600000
        { chargerId := .str "CHG001", timestamp := .num 0, data := .obj } =
      .invalid .MissingTimestamp ∧
    validateEvent 1705314600000
        { chargerId := .num 42, timestamp := .str "x", data := .obj } =
      .invalid .InvalidChargerIdFormat := by
  refine ⟨(C10_truthiness_checks 1705314600000 _).1 (by decide),
    (C10_truthiness_checks 1705314600000 _).1 (by rfl),
    (C10_truthiness_checks 1705314600000 _).2.1 (by rfl) (by rfl),
    (C10_truthiness_checks 1705314600000 _).2.2.2.2 (by decide) ?_ (by rfl)⟩
  intro c hc
  exact absurd hc (by simp)

/-- C5: the timestamp-format check accepts a string exactly when it parses
as an ISO8601 instant whose round-trip serialization equals the input
character for character; parseable but non-canonical forms such as a
missing milliseconds field or an explicit +00:00 offset are rejected. -/
theorem C5_canonical_timestamp_format :
    (∀ s : String, isValidTimestamp (.str s) = true ↔
      ∃ t, parseDate s.data = some t ∧ toISOString t = s) ∧
    isValidTimestamp (.str "2024-01-15T10:30:00.000Z") = true ∧
    isValidTimestamp (.str "2024-01-15T10:30:00Z") = false ∧
    parseDate "2024-01-15T10:30:00Z".data = some 1705314600000 ∧
    isValidTimestamp (.str "2024-01-15T10:30:00.000+00:00") = false ∧
    parseDate "2024-01-15T10:30:00.000+00:00".data = some 1705314600000 := by
  exact ⟨isValidTimestamp_iff, by decide, by decide, by decide, by decide, by decide⟩

theorem fromStoredEvent_eq (se : StoredEvent) (t r p : Nat)
    (h1 : parseDate se.timestamp.data = some t)
    (h2 : parseDate se.metadata.receivedAt.data = some r)
    (h3 : parseDate se.metadata.processedAt.data = some p) :
    fromStoredEvent se =
      some { eventId := se.eventId, chargerId := se.chargerId, timestamp := t,
             data := se.data, metadata := { receivedAt := r, processedAt := p } } := by
  unfold fromStoredEvent
  rw [h1, h2, h3]

/-- C7: for every validated event, enrichment followed by conversion to the
stored form and store-deserialization round-trips the whole record - in
particular chargerId, timestamp and the untouched payload - and the stored
record's ttl equals the write time in unix seconds plus exactly 90 days.
The timestamp hypotheses restrict to the covered calendar range of the
serialization model (epoch through year 9999). -/
theorem C7_store_roundtrip (uuid : String) (nowEnrich nowWrite : Nat) (v : ValidatedEvent)
    (h1 : v.timestamp < 253402300800000) (h2 : nowEnrich < 253402300800000) :
    fromStoredEvent (toStoredEvent nowWrite (enrichEvent uuid nowEnrich v)) =
      some (enrichEvent uuid nowEnrich v) ∧
    (toStoredEvent nowWrite (enrichEvent uuid nowEnrich v)).chargerId = v.chargerId ∧
    (toStoredEvent nowWrite (enrichEvent uuid nowEnrich v)).data = v.data ∧
    (toStoredEvent nowWrite (enrichEvent uuid nowEnrich v)).timestamp =
      toISOString v.timestamp ∧
    (toStoredEvent nowWrite (enrichEvent uuid nowEnrich v)).ttl =
      nowWrite / 1000 + 90 * 24 * 60 * 60 := by
  refine ⟨?_, rfl, rfl, rfl, rfl⟩
  have hp1 := parseDate_isoChars v.timestamp h1
  have hp2 := parseDate_isoChars nowEnrich h2
  rw [fromStoredEvent_eq (toStoredEvent nowWrite (enrichEvent uuid nowEnrich v))
    v.timestamp nowEnrich nowEnrich hp1 hp2 hp2]
  rfl

/-- C7 witness: a concrete enriched event written at a concrete clock
round-trips through the stored form, with the expected expiry stamp. -/
theorem C7_store_roundtrip_witness :
    fromStoredEvent (toStoredEvent 1705314600500
        (enrichEvent "123e4567-e89b-12d3-a456-426614174000" 1705314600123
          { chargerId := "CHG001", timestamp := 1705314600000, data := .obj })) =
      some (enrichEvent "123e4567-e89b-12d3-a456-426614174000" 1705314600123
        { chargerId := "CHG001", timestamp := 1705314600000, data := .obj }) ∧
    (toStoredEvent 1705314600500
        (enrichEvent "123e4567-e89b-12d3-a456-426614174000" 1705314600123
          { chargerId := "CHG001", timestamp := 1705314600000, data := .obj })).ttl =
      1705314600500 / 1000 + 90 * 24 * 60 * 60 := by
  have h := C7_store_roundtrip "123e4567-e89b-12d3-a456-426614174000"
    1705314600123 1705314600500
    { chargerId := "CHG001", timestamp := 1705314600000, data := .obj }
    (by decide) (by decide)
  exact ⟨h.1, h.2.2.2.2⟩

/-- C9 counterexample: an event that fails validation does not surface any
failure to the invoking framework - the validator handler completes
normally, publishes a rejection metric, and drops the event without
invoking the processor, contradicting the claim that validation failures
propagate up to the caller. -/
theorem C9_counterexample :
    validateEvent 1705314600000
        { chargerId := .undefined, timestamp := .undefined, data := .undefined } =
      .invalid .MissingChargerId ∧
    (validatorHandler 1705314600000 (.ok ())
        { chargerId := .undefined, timestamp := .undefined, data := .undefined }).outcome =
      .ok () ∧
    (validatorHandler 1705314600000 (.ok ())
        { chargerId := .undefined, timestamp := .undefined, data := .undefined }).invoked =
      none := ⟨rfl, rfl, rfl⟩

/-- C9 amended: in the write path only storage-side failures propagate to
the invoking framework: the processor handler re-raises a store error after
counting it (driving retry and dead-letter), while a raw event that fails
validation is counted and dropped - the validator handler returns normally
and never invokes the processor for it. -/
theorem C9_propagation_amended (now : Nat) (ev : TelemetryEvent)
    (invokeResult : Except String Unit) (uuid : String) (nowEnrich nowWrite : Nat)
    (ve : ValidatedEvent) (err : String) :
    (∀ r, validateEvent now ev = .invalid r →
      (validatorHandler now invokeResult ev).outcome = .ok () ∧
      (validatorHandler now invokeResult ev).invoked = none ∧
      (validatorHandler now invokeResult ev).rejectedMetric = some r) ∧
    (processorHandler uuid nowEnrich nowWrite (.error err) ve).outcome = .error err ∧
    (processorHandler uuid nowEnrich nowWrite (.error err) ve).failureMetric = true ∧
    (processorHandler uuid nowEnrich nowWrite (.error err) ve).stored = none := by
  refine ⟨?_, rfl, rfl, rfl⟩
  intro r hr
  unfold validatorHandler
  rw [hr]
  exact ⟨rfl, rfl, rfl⟩

/-- C9 amended witness: concrete instances - a rejected event completes
without error and a store failure is re-raised verbatim as the outcome. -/
theorem C9_propagation_amended_witness :
    (validatorHandler 1705314600000 (.ok ())
        { chargerId := .null, timestamp := .str "x", data := .obj }).outcome = .ok () ∧
    (validatorHandler 1705314600000 (.ok ())
        { chargerId := .null, timestamp := .str "x", data := .obj }).rejectedMetric =
      some .MissingChargerId ∧
    (processorHandler "uuid-1" 1705314600123 1705314600500 (.error "dynamo down")
        { chargerId := "CHG001", timestamp := 1705314600000, data := .obj }).outcome =
      .error "dynamo down" := by
  have h := C9_propagation_amended 1705314600000
    { chargerId := .null, timestamp := .str "x", data := .obj } (.ok ())
    "uuid-1" 1705314600123 1705314600500
    { chargerId := "CHG001", timestamp := 1705314600000, data := .obj } "dynamo down"
  exact ⟨(h.1 .MissingChargerId rfl).1, (h.1 .MissingChargerId rfl).2.2, h.2.1⟩
